import Mathlib

/-!
Shallow embedding of the resource-request lifecycle of `src/server.js`
(multi-hospital communication system).

The server is an Express application backed by Mongoose models.  We embed:

* the data model (`HospitalSchema.details`, `RequestSchema`, sessions) as
  Lean structures, with MongoDB ObjectIds modelled as `Nat`;
* the two collections as association lists keyed by id, with
  `findById` / `findByIdAndUpdate` as lookup / pointwise map;
* each lifecycle route handler (`POST /api/requests`, `/accept`,
  `/cancel`, `/finalize`, `/reject`) as a pure function from the session,
  the request body and the database state to an HTTP outcome and the new
  database state.

Authentication fields (emails, bcrypt hashes, the admin collection) and the
knowledge-article routes are not modelled: no claim under consideration
mentions them, and the routes below only consult `req.session.userId` and
(never, in the lifecycle routes) `req.session.userType`.
-/

/-- The eight blood-group tags of `details.bloodAvailability`. -/
inductive BloodGroup where
  | APos | ANeg | BPos | BNeg | ABPos | ABNeg | OPos | ONeg
  deriving DecidableEq, Repr

/-- The organ-name enum of `details.organAvailability[].organName`. -/
inductive OrganName where
  | Kidney | Liver | Heart | Lung | Pancreas | Cornea
  deriving DecidableEq, Repr

/-- One entry of a hospital's `details.organAvailability` array. -/
structure OrganOffer where
  organName : OrganName
  bloodGroup : BloodGroup
  age : Int
  notes : Option String
  deriving DecidableEq, Repr

/-- The `details.bloodAvailability` subdocument: a fixed record of the eight group counts
(the Mongoose schema declares exactly these eight `Number` fields). -/
structure BloodAvailability where
  aPos : Int
  aNeg : Int
  bPos : Int
  bNeg : Int
  abPos : Int
  abNeg : Int
  oPos : Int
  oNeg : Int
  deriving DecidableEq, Repr

/-- Read the count stored under key `g` in `bloodAvailability`. -/
def BloodAvailability.get (b : BloodAvailability) : BloodGroup → Int
  | BloodGroup.APos => b.aPos
  | BloodGroup.ANeg => b.aNeg
  | BloodGroup.BPos => b.bPos
  | BloodGroup.BNeg => b.bNeg
  | BloodGroup.ABPos => b.abPos
  | BloodGroup.ABNeg => b.abNeg
  | BloodGroup.OPos => b.oPos
  | BloodGroup.ONeg => b.oNeg

/-- MongoDB `$inc` on the single key `details.bloodAvailability.<g>`:
add `d` to the count of group `g`, leaving the other seven untouched. -/
def BloodAvailability.inc (b : BloodAvailability) (g : BloodGroup) (d : Int) :
    BloodAvailability :=
  match g with
  | BloodGroup.APos => { b with aPos := b.aPos + d }
  | BloodGroup.ANeg => { b with aNeg := b.aNeg + d }
  | BloodGroup.BPos => { b with bPos := b.bPos + d }
  | BloodGroup.BNeg => { b with bNeg := b.bNeg + d }
  | BloodGroup.ABPos => { b with abPos := b.abPos + d }
  | BloodGroup.ABNeg => { b with abNeg := b.abNeg + d }
  | BloodGroup.OPos => { b with oPos := b.oPos + d }
  | BloodGroup.ONeg => { b with oNeg := b.oNeg + d }

/-- The `details.oxygenCylinders` subdocument (one field in the schema). -/
structure OxygenCylinders where
  total : Int
  deriving DecidableEq, Repr

/-- A hospital document's `details` subdocument.  The identity and contact
fields of `HospitalSchema` play no role in any lifecycle route and are
carried implicitly by the association-list key. -/
structure HospitalDetails where
  oxygenCylinders : OxygenCylinders
  bloodAvailability : BloodAvailability
  organAvailability : List OrganOffer
  deriving DecidableEq, Repr

/-- The `RequestSchema.requestType` enum. -/
inductive RequestType where
  | Oxygen | Blood | Organ
  deriving DecidableEq, Repr

/-- The `RequestSchema.status` enum. -/
inductive Status where
  | Open | Accepted | Closed | Rejected
  deriving DecidableEq, Repr

/-- The `RequestSchema.details` subdocument: all three fields are optional in the schema;
which of them are populated depends on `requestType`. -/
structure RequestDetails where
  bloodGroup : Option BloodGroup
  quantity : Option Int
  organName : Option OrganName
  deriving DecidableEq, Repr

/-- A request document.  Timestamps are omitted (no claim mentions them). -/
structure Request where
  requestingHospital : Nat
  providingHospital : Option Nat
  requestType : RequestType
  status : Status
  details : RequestDetails
  description : String
  deriving DecidableEq, Repr

/-- The `req.session.userType` tag as set by `POST /api/login`. -/
inductive UserType where
  | hospital | admin
  deriving DecidableEq, Repr

/-- An authenticated session: `req.session.userId` plus `userType`. -/
structure Session where
  userId : Nat
  userType : UserType
  deriving DecidableEq, Repr

/-- The distinct error responses the lifecycle routes can produce.
`unauthorized` is the 401 from `isAuthenticated`; `notFound` the 404
"Request not found."; `invalidState` the 400 "This request is no longer
open."; `selfAction` the 400 "You cannot accept/reject your own request.";
`forbidden` the 403 "Not authorized."; `invalidStatus` the 400 "Invalid
status. Only successful fulfillment is allowed." of the finalize route
(the spec's `InvalidArgument`). -/
inductive ApiError where
  | unauthorized
  | notFound
  | invalidState
  | selfAction
  | forbidden
  | invalidStatus
  deriving DecidableEq, Repr

/-- Model lookup (`findById`) on an association list keyed by ObjectId. -/
def lookupA {α : Type} : List (Nat × α) → Nat → Option α
  | [], _ => none
  | (k, v) :: rest, id => if k = id then some v else lookupA rest id

/-- Model update (`findByIdAndUpdate`): rewrite the document stored under `id`, a
no-op when no document has that id (Mongo then matches nothing). -/
def updateA {α : Type} : List (Nat × α) → Nat → (α → α) → List (Nat × α)
  | [], _, _ => []
  | (k, v) :: rest, id, f =>
    (if k = id then (k, f v) else (k, v)) :: updateA rest id f

/-- The database state: the `hospitals` and `requests` collections. -/
structure DB where
  hospitals : List (Nat × HospitalDetails)
  requests : List (Nat × Request)
  deriving DecidableEq, Repr

def findReq (db : DB) (id : Nat) : Option Request :=
  lookupA db.requests id

def updateReq (db : DB) (id : Nat) (f : Request → Request) : DB :=
  { db with requests := updateA db.requests id f }

def findHosp (db : DB) (id : Nat) : Option HospitalDetails :=
  lookupA db.hospitals id

def updateHosp (db : DB) (id : Nat) (f : HospitalDetails → HospitalDetails) :
    DB :=
  { db with hospitals := updateA db.hospitals id f }

/-- The `update` object built by the accept handler: one of
`$inc details.bloodAvailability.<g> by -q`, `$inc
details.oxygenCylinders.total by -q`, or `$pull from
details.organAvailability matching (organName, bloodGroup)`.  The request's
`details` fields are optional, hence the `Option` payloads. -/
inductive InventoryUpdate where
  | incBlood (g : Option BloodGroup) (q : Option Int)
  | incOxygen (q : Option Int)
  | pullOrgan (o : Option OrganName) (g : Option BloodGroup)
  deriving DecidableEq, Repr

/-- The `$pull` filter `\x7b organName, bloodGroup \x7d` applied to one
array element.  When either request field is absent the filter compares
against a missing value; schema-required offer fields are always present,
so nothing matches. -/
def pullMatches (off : OrganOffer) (o : Option OrganName)
    (g : Option BloodGroup) : Bool :=
  match o, g with
  | some o', some g' => off.organName == o' && off.bloodGroup == g'
  | _, _ => false

/-- Lines 251-258 of `server.js`: derive the provider-inventory update from
the request's type and details. -/
def computeUpdate (req : Request) : InventoryUpdate :=
  match req.requestType with
  | RequestType.Blood =>
      InventoryUpdate.incBlood req.details.bloodGroup req.details.quantity
  | RequestType.Oxygen => InventoryUpdate.incOxygen req.details.quantity
  | RequestType.Organ =>
      InventoryUpdate.pullOrgan req.details.organName req.details.bloodGroup

/-- Apply the accept handler's update object to one hospital's `details`.
A `$inc` whose key or amount is an absent request field touches none of the
eight schema-declared group counts (Mongo would write under a key outside
the schema), so those arms leave the modelled state unchanged; no claim
exercises them.  `$pull` removes every array element matching the filter. -/
def applyUpdate (h : HospitalDetails) : InventoryUpdate → HospitalDetails
  | InventoryUpdate.incBlood (some g) (some q) =>
      { h with bloodAvailability := h.bloodAvailability.inc g (-q) }
  | InventoryUpdate.incBlood _ _ => h
  | InventoryUpdate.incOxygen (some q) =>
      { h with oxygenCylinders :=
          { total := h.oxygenCylinders.total + (-q) } }
  | InventoryUpdate.incOxygen none => h
  | InventoryUpdate.pullOrgan o g =>
      { h with organAvailability :=
          h.organAvailability.filter (fun off => ! pullMatches off o g) }

/-- The caller-supplied body of `POST /api/requests` (`req.body`).  The
handler spreads it into the new document, so it may carry values for any
schema field, `status` and `providingHospital` included. -/
structure RequestDraft where
  requestingHospital : Option Nat
  providingHospital : Option Nat
  status : Option Status
  requestType : RequestType
  details : RequestDetails
  description : String
  deriving DecidableEq, Repr

/-- Route `POST /api/requests` (lines 215-226): `new Request(\x7b ...req.body,
requestingHospital: req.session.userId \x7d)` — the spread comes first, so
only `requestingHospital` is overridden; `status` falls back to the schema
default `Open` only when the draft omits it.  `newId` stands for the
ObjectId Mongo assigns on save. -/
def createRequest (sess : Option Session) (newId : Nat)
    (draft : RequestDraft) (db : DB) : Except ApiError Request × DB :=
  match sess with
  | none => (Except.error ApiError.unauthorized, db)
  | some s =>
    let req : Request :=
      { requestingHospital := s.userId
        providingHospital := draft.providingHospital
        requestType := draft.requestType
        status := draft.status.getD Status.Open
        details := draft.details
        description := draft.description }
    (Except.ok req, { db with requests := db.requests ++ [(newId, req)] })

/-- The read phase of `POST /api/requests/accept` (lines 244-258): the
`findById` and the three guards, returning the computed inventory update.
Everything up to here only reads the database. -/
def acceptRead (s : Session) (requestId : Nat) (db : DB) :
    Except ApiError InventoryUpdate :=
  match findReq db requestId with
  | none => Except.error ApiError.notFound
  | some request =>
    if request.status ≠ Status.Open then Except.error ApiError.invalidState
    else if request.requestingHospital = s.userId then
      Except.error ApiError.selfAction
    else Except.ok (computeUpdate request)

/-- The write phase of the accept handler (lines 260-264): the two awaited
`findByIdAndUpdate` calls — debit the provider's inventory, then set
`status: Accepted, providingHospital` unconditionally (no filter on the
current status). -/
def acceptCommit (providerId requestId : Nat) (upd : InventoryUpdate)
    (db : DB) : DB :=
  updateReq (updateHosp db providerId (fun h => applyUpdate h upd)) requestId
    (fun r => { r with status := Status.Accepted,
                       providingHospital := some providerId })

/-- Route `POST /api/requests/accept` (lines 240-271) run to completion without
interleaving: read phase then write phase. -/
def acceptRequest (sess : Option Session) (requestId : Nat) (db : DB) :
    Except ApiError Unit × DB :=
  match sess with
  | none => (Except.error ApiError.unauthorized, db)
  | some s =>
    match acceptRead s requestId db with
    | Except.error e => (Except.error e, db)
    | Except.ok upd => (Except.ok (), acceptCommit s.userId requestId upd db)

/-- Route `POST /api/requests/reject` (lines 311-333): same guards as accept, then
a single `findByIdAndUpdate` setting `status: Rejected, providingHospital`;
no hospital document is touched. -/
def rejectRequest (sess : Option Session) (requestId : Nat) (db : DB) :
    Except ApiError Unit × DB :=
  match sess with
  | none => (Except.error ApiError.unauthorized, db)
  | some s =>
    match findReq db requestId with
    | none => (Except.error ApiError.notFound, db)
    | some request =>
      if request.status ≠ Status.Open then
        (Except.error ApiError.invalidState, db)
      else if request.requestingHospital = s.userId then
        (Except.error ApiError.selfAction, db)
      else
        (Except.ok (),
          updateReq db requestId
            (fun r => { r with status := Status.Rejected,
                               providingHospital := some s.userId }))

/-- Route `POST /api/requests/cancel` (lines 273-286): owner-only
`findByIdAndDelete`. -/
def cancelRequest (sess : Option Session) (requestId : Nat) (db : DB) :
    Except ApiError Unit × DB :=
  match sess with
  | none => (Except.error ApiError.unauthorized, db)
  | some s =>
    match findReq db requestId with
    | none => (Except.error ApiError.notFound, db)
    | some request =>
      if request.requestingHospital ≠ s.userId then
        (Except.error ApiError.forbidden, db)
      else
        (Except.ok (),
          { db with requests :=
              db.requests.filter (fun p => p.1 != requestId) })

/-- Route `POST /api/requests/finalize` (lines 288-308): owner-only; rejects any
`finalStatus` other than the string "Closed"; then
`findByIdAndUpdate(requestId, \x7b status: finalStatus \x7d)` with no check
of the request's current status. -/
def finalizeRequest (sess : Option Session) (requestId : Nat)
    (finalStatus : String) (db : DB) : Except ApiError Unit × DB :=
  match sess with
  | none => (Except.error ApiError.unauthorized, db)
  | some s =>
    match findReq db requestId with
    | none => (Except.error ApiError.notFound, db)
    | some request =>
      if request.requestingHospital ≠ s.userId then
        (Except.error ApiError.forbidden, db)
      else if finalStatus ≠ "Closed" then
        (Except.error ApiError.invalidStatus, db)
      else
        (Except.ok (),
          updateReq db requestId (fun r => { r with status := Status.Closed }))

/-- Two accept handlers for the same request racing on node's event loop,
scheduled so that both `findById` reads complete before either handler's
writes: `s1` reads, `s2` reads, `s1` writes, `s2` writes.  Each `await` in
the handler is a yield point, so this interleaving is admissible. -/
def acceptConcurrentReadsFirst (s1 s2 : Session) (requestId : Nat)
    (db : DB) : Except ApiError Unit × Except ApiError Unit × DB :=
  let r1 := acceptRead s1 requestId db
  let r2 := acceptRead s2 requestId db
  let step1 : Except ApiError Unit × DB :=
    match r1 with
    | Except.error e => (Except.error e, db)
    | Except.ok u1 => (Except.ok (), acceptCommit s1.userId requestId u1 db)
  let step2 : Except ApiError Unit × DB :=
    match r2 with
    | Except.error e => (Except.error e, step1.2)
    | Except.ok u2 =>
        (Except.ok (), acceptCommit s2.userId requestId u2 step1.2)
  (step1.1, step2.1, step2.2)

/-! ### Store lemmas -/

theorem lookupA_updateA_self {α : Type} (l : List (Nat × α)) (id : Nat)
    (f : α → α) : lookupA (updateA l id f) id = (lookupA l id).map f := by
  induction l with
  | nil => rfl
  | cons p rest ih =>
    obtain ⟨k, v⟩ := p
    simp only [updateA]
    by_cases hk : k = id
    · subst hk
      rw [if_pos rfl]
      simp [lookupA]
    · rw [if_neg hk]
      simp only [lookupA]
      rw [if_neg hk, if_neg hk]
      exact ih

theorem lookupA_updateA_ne {α : Type} (l : List (Nat × α)) (id id' : Nat)
    (f : α → α) (h : id' ≠ id) :
    lookupA (updateA l id' f) id = lookupA l id := by
  induction l with
  | nil => rfl
  | cons p rest ih =>
    obtain ⟨k, v⟩ := p
    simp only [updateA]
    by_cases hk : k = id'
    · rw [if_pos hk]
      subst hk
      simp only [lookupA]
      rw [if_neg h, if_neg h]
      exact ih
    · rw [if_neg hk]
      simp only [lookupA]
      by_cases hk2 : k = id
      · rw [if_pos hk2, if_pos hk2]
      · rw [if_neg hk2, if_neg hk2]
        exact ih

theorem updateA_not_found {α : Type} (l : List (Nat × α)) (id : Nat)
    (f : α → α) (h : lookupA l id = none) : updateA l id f = l := by
  induction l with
  | nil => rfl
  | cons p rest ih =>
    obtain ⟨k, v⟩ := p
    simp only [lookupA] at h
    by_cases hk : k = id
    · rw [if_pos hk] at h
      exact absurd h (by simp)
    · rw [if_neg hk] at h
      simp only [updateA]
      rw [if_neg hk, ih h]

theorem lookupA_append_fresh {α : Type} (l : List (Nat × α)) (id : Nat)
    (v : α) (h : lookupA l id = none) :
    lookupA (l ++ [(id, v)]) id = some v := by
  induction l with
  | nil =>
    simp [lookupA]
  | cons p rest ih =>
    obtain ⟨k, w⟩ := p
    simp only [lookupA] at h
    by_cases hk : k = id
    · rw [if_pos hk] at h
      exact absurd h (by simp)
    · rw [if_neg hk] at h
      simp only [List.cons_append, lookupA]
      rw [if_neg hk]
      exact ih h

@[simp]
theorem findReq_updateHosp (db : DB) (p : Nat)
    (f : HospitalDetails → HospitalDetails) (id : Nat) :
    findReq (updateHosp db p f) id = findReq db id := rfl

@[simp]
theorem findHosp_updateReq (db : DB) (i : Nat) (f : Request → Request)
    (id : Nat) : findHosp (updateReq db i f) id = findHosp db id := rfl

@[simp]
theorem hospitals_updateReq (db : DB) (i : Nat) (f : Request → Request) :
    (updateReq db i f).hospitals = db.hospitals := rfl

theorem findReq_updateReq_self (db : DB) (id : Nat) (f : Request → Request) :
    findReq (updateReq db id f) id = (findReq db id).map f :=
  lookupA_updateA_self db.requests id f

theorem findHosp_updateHosp_self (db : DB) (id : Nat)
    (f : HospitalDetails → HospitalDetails) :
    findHosp (updateHosp db id f) id = (findHosp db id).map f :=
  lookupA_updateA_self db.hospitals id f

theorem findHosp_updateHosp_ne (db : DB) (id id' : Nat)
    (f : HospitalDetails → HospitalDetails) (h : id' ≠ id) :
    findHosp (updateHosp db id' f) id = findHosp db id :=
  lookupA_updateA_ne db.hospitals id id' f h

theorem updateHosp_not_found (db : DB) (id : Nat)
    (f : HospitalDetails → HospitalDetails) (h : findHosp db id = none) :
    updateHosp db id f = db := by
  cases db with
  | mk hs rs =>
    simp [updateHosp, updateA_not_found hs id f h]

/-! ### Concrete fixtures used by witnesses -/

/-- A small concrete inventory shared by the concrete instances below. -/
def demoDetails : HospitalDetails :=
  { oxygenCylinders := { total := 10 }
    bloodAvailability :=
      { aPos := 5, aNeg := 0, bPos := 0, bNeg := 0,
        abPos := 0, abNeg := 0, oPos := 5, oNeg := 0 }
    organAvailability := [] }

/-- An open oxygen request posted by hospital 1. -/
def reqOpen1 : Request :=
  { requestingHospital := 1
    providingHospital := none
    requestType := RequestType.Oxygen
    status := Status.Open
    details := { bloodGroup := none, quantity := some 2, organName := none }
    description := "need oxygen" }

/-- The same request after hospital 2 accepted it. -/
def reqAccepted1 : Request :=
  { reqOpen1 with status := Status.Accepted, providingHospital := some 2 }

/-- Two hospitals; request 7 is open, request 8 already accepted. -/
def db5 : DB :=
  { hospitals := [(1, demoDetails), (2, demoDetails)]
    requests := [(7, reqOpen1), (8, reqAccepted1)] }

/-! ### C5 -/

/-- C5: Accept and Reject both fail `notFound` when no request has the given
id; `invalidState` when the request exists but its status is not `Open`;
`selfAction` when it is `Open` but `requestingHospital` equals the acting
session's user id (the guards run in that order); and whenever the acting
user is the requester, neither operation can succeed. -/
theorem accept_reject_precondition_errors (s : Session) (rid : Nat)
    (db : DB) :
    (findReq db rid = none →
      (acceptRequest (some s) rid db).1 = Except.error ApiError.notFound ∧
      (rejectRequest (some s) rid db).1 = Except.error ApiError.notFound) ∧
    (∀ req, findReq db rid = some req → req.status ≠ Status.Open →
      (acceptRequest (some s) rid db).1 = Except.error ApiError.invalidState ∧
      (rejectRequest (some s) rid db).1 =
        Except.error ApiError.invalidState) ∧
    (∀ req, findReq db rid = some req → req.status = Status.Open →
      req.requestingHospital = s.userId →
      (acceptRequest (some s) rid db).1 = Except.error ApiError.selfAction ∧
      (rejectRequest (some s) rid db).1 = Except.error ApiError.selfAction) ∧
    (∀ req, findReq db rid = some req → req.requestingHospital = s.userId →
      ∀ u, (acceptRequest (some s) rid db).1 ≠ Except.ok u ∧
        (rejectRequest (some s) rid db).1 ≠ Except.ok u) := by
  refine ⟨?_, ?_, ?_, ?_⟩
  · intro h
    exact ⟨by simp [acceptRequest, acceptRead, h],
           by simp [rejectRequest, h]⟩
  · intro req hreq hst
    exact ⟨by simp [acceptRequest, acceptRead, hreq, hst],
           by simp [rejectRequest, hreq, hst]⟩
  · intro req hreq hopen hself
    exact ⟨by simp [acceptRequest, acceptRead, hreq, hopen, hself],
           by simp [rejectRequest, hreq, hopen, hself]⟩
  · intro req hreq hself u
    by_cases hopen : req.status = Status.Open
    · exact ⟨by simp [acceptRequest, acceptRead, hreq, hopen, hself],
             by simp [rejectRequest, hreq, hopen, hself]⟩
    · exact ⟨by simp [acceptRequest, acceptRead, hreq, hopen],
             by simp [rejectRequest, hreq, hopen]⟩

/-- Witness for C5 at concrete inputs: a missing id, an already-accepted
request, and a self-targeted accept. -/
theorem accept_reject_precondition_errors_witness :
    (acceptRequest (some ⟨2, UserType.hospital⟩) 99 db5).1 =
      Except.error ApiError.notFound ∧
    (rejectRequest (some ⟨2, UserType.hospital⟩) 99 db5).1 =
      Except.error ApiError.notFound ∧
    (acceptRequest (some ⟨2, UserType.hospital⟩) 8 db5).1 =
      Except.error ApiError.invalidState ∧
    (acceptRequest (some ⟨1, UserType.hospital⟩) 7 db5).1 =
      Except.error ApiError.selfAction := by
  refine ⟨?_, ?_, ?_, ?_⟩
  · exact ((accept_reject_precondition_errors ⟨2, UserType.hospital⟩ 99
      db5).1 rfl).1
  · exact ((accept_reject_precondition_errors ⟨2, UserType.hospital⟩ 99
      db5).1 rfl).2
  · exact ((accept_reject_precondition_errors ⟨2, UserType.hospital⟩ 8
      db5).2.1 reqAccepted1 rfl (by decide)).1
  · exact ((accept_reject_precondition_errors ⟨1, UserType.hospital⟩ 7
      db5).2.2.1 reqOpen1 rfl rfl rfl).1

/-! ### C6 -/

/-- C6: rejecting an open request the acting hospital does not own succeeds,
sets `status = Rejected` and `providingHospital` to the acting hospital, and
leaves the whole `hospitals` collection — every inventory — untouched. -/
theorem reject_sets_status_no_inventory_change (s : Session) (rid : Nat)
    (db : DB) (req : Request) (hreq : findReq db rid = some req)
    (hopen : req.status = Status.Open)
    (hself : req.requestingHospital ≠ s.userId) :
    (rejectRequest (some s) rid db).1 = Except.ok () ∧
    (rejectRequest (some s) rid db).2.hospitals = db.hospitals ∧
    findReq (rejectRequest (some s) rid db).2 rid =
      some { req with status := Status.Rejected,
                      providingHospital := some s.userId } := by
  refine ⟨?_, ?_, ?_⟩ <;>
    simp [rejectRequest, hreq, hopen, hself, findReq_updateReq_self]

/-- Witness for C6: hospital 2 rejects hospital 1's open request 7. -/
theorem reject_sets_status_no_inventory_change_witness :
    (rejectRequest (some ⟨2, UserType.hospital⟩) 7 db5).1 = Except.ok () ∧
    (rejectRequest (some ⟨2, UserType.hospital⟩) 7 db5).2.hospitals =
      db5.hospitals ∧
    findReq (rejectRequest (some ⟨2, UserType.hospital⟩) 7 db5).2 7 =
      some { reqOpen1 with status := Status.Rejected,
                           providingHospital := some 2 } :=
  reject_sets_status_no_inventory_change ⟨2, UserType.hospital⟩ 7 db5
    reqOpen1 rfl rfl (by decide)

/-! ### C7 -/

/-- C7: finalize fails `notFound` when the request is absent, `forbidden`
when the caller is not the requesting hospital, `invalidStatus` (the spec's
`InvalidArgument`) when the target status is not the string "Closed", and
otherwise succeeds, setting `status = Closed` and touching no hospital
inventory. -/
theorem finalize_guards_and_effect (s : Session) (rid : Nat) (fs : String)
    (db : DB) :
    (findReq db rid = none →
      (finalizeRequest (some s) rid fs db).1 =
        Except.error ApiError.notFound) ∧
    (∀ req, findReq db rid = some req →
      req.requestingHospital ≠ s.userId →
      (finalizeRequest (some s) rid fs db).1 =
        Except.error ApiError.forbidden) ∧
    (∀ req, findReq db rid = some req → req.requestingHospital = s.userId →
      fs ≠ "Closed" →
      (finalizeRequest (some s) rid fs db).1 =
        Except.error ApiError.invalidStatus) ∧
    (∀ req, findReq db rid = some req → req.requestingHospital = s.userId →
      fs = "Closed" →
      (finalizeRequest (some s) rid fs db).1 = Except.ok () ∧
      (finalizeRequest (some s) rid fs db).2.hospitals = db.hospitals ∧
      findReq (finalizeRequest (some s) rid fs db).2 rid =
        some { req with status := Status.Closed }) := by
  refine ⟨?_, ?_, ?_, ?_⟩
  · intro h
    simp [finalizeRequest, h]
  · intro req hreq hown
    simp [finalizeRequest, hreq, hown]
  · intro req hreq hown hfs
    simp [finalizeRequest, hreq, hown, hfs]
  · intro req hreq hown hfs
    refine ⟨?_, ?_, ?_⟩ <;>
      simp [finalizeRequest, hreq, hown, hfs, findReq_updateReq_self]

/-- Witness for C7: all four outcomes at concrete inputs over `db5`. -/
theorem finalize_guards_and_effect_witness :
    (finalizeRequest (some ⟨1, UserType.hospital⟩) 8 "Closed" db5).1 =
      Except.ok () ∧
    (finalizeRequest (some ⟨2, UserType.hospital⟩) 8 "Closed" db5).1 =
      Except.error ApiError.forbidden ∧
    (finalizeRequest (some ⟨1, UserType.hospital⟩) 8 "Open" db5).1 =
      Except.error ApiError.invalidStatus ∧
    (finalizeRequest (some ⟨1, UserType.hospital⟩) 99 "Closed" db5).1 =
      Except.error ApiError.notFound := by
  refine ⟨?_, ?_, ?_, ?_⟩
  · exact ((finalize_guards_and_effect ⟨1, UserType.hospital⟩ 8 "Closed"
      db5).2.2.2 reqAccepted1 rfl rfl rfl).1
  · exact (finalize_guards_and_effect ⟨2, UserType.hospital⟩ 8 "Closed"
      db5).2.1 reqAccepted1 rfl (by decide)
  · exact (finalize_guards_and_effect ⟨1, UserType.hospital⟩ 8 "Open"
      db5).2.2.1 reqAccepted1 rfl rfl (by decide)
  · exact (finalize_guards_and_effect ⟨1, UserType.hospital⟩ 99 "Closed"
      db5).1 rfl

/-! ### C2 (amended) -/

/-- C2 (amended): accepting an open request the acting hospital `s.userId`
does not own always succeeds; the request becomes `Accepted` with
`providingHospital = s.userId`; and the acting hospital's inventory receives
exactly the handler's update — for Blood a debit of `quantity` on the named
blood-group count, for Oxygen a debit of `quantity` on the cylinder total,
and for Organ the `$pull`, which removes **every** stored offer matching
`(organName, bloodGroup)`, not exactly one. -/
theorem accept_success_effects (s : Session) (rid : Nat) (db : DB)
    (req : Request) (h : HospitalDetails)
    (hreq : findReq db rid = some req)
    (hopen : req.status = Status.Open)
    (hself : req.requestingHospital ≠ s.userId)
    (hhos : findHosp db s.userId = some h) :
    (acceptRequest (some s) rid db).1 = Except.ok () ∧
    findReq (acceptRequest (some s) rid db).2 rid =
      some { req with status := Status.Accepted,
                      providingHospital := some s.userId } ∧
    findHosp (acceptRequest (some s) rid db).2 s.userId =
      some (applyUpdate h (computeUpdate req)) ∧
    (∀ g q, req.requestType = RequestType.Blood →
      req.details.bloodGroup = some g → req.details.quantity = some q →
      applyUpdate h (computeUpdate req) =
        { h with bloodAvailability := h.bloodAvailability.inc g (-q) }) ∧
    (∀ q, req.requestType = RequestType.Oxygen →
      req.details.quantity = some q →
      applyUpdate h (computeUpdate req) =
        { h with oxygenCylinders :=
            { total := h.oxygenCylinders.total - q } }) ∧
    (req.requestType = RequestType.Organ →
      applyUpdate h (computeUpdate req) =
        { h with organAvailability :=
            (h.organAvailability.filter (fun off =>
              ! pullMatches off req.details.organName
                req.details.bloodGroup)) }) := by
  have hred : acceptRequest (some s) rid db =
      (Except.ok (), acceptCommit s.userId rid (computeUpdate req) db) := by
    simp [acceptRequest, acceptRead, hreq, hopen, hself]
  refine ⟨by rw [hred], ?_, ?_, ?_, ?_, ?_⟩
  · rw [hred]
    simp [acceptCommit, findReq_updateReq_self, hreq]
  · rw [hred]
    simp [acceptCommit, findHosp_updateHosp_self, hhos]
  · intro g q ht hg hq
    simp [computeUpdate, applyUpdate, ht, hg, hq]
  · intro q ht hq
    simp [computeUpdate, applyUpdate, ht, hq, sub_eq_add_neg]
  · intro ht
    simp [computeUpdate, applyUpdate, ht]

/-- Witness for C2 (amended): hospital 2 accepts hospital 1's open oxygen
request for 2 cylinders; its total drops from 10 to 8. -/
theorem accept_success_effects_witness :
    (acceptRequest (some ⟨2, UserType.hospital⟩) 7 db5).1 = Except.ok () ∧
    findHosp (acceptRequest (some ⟨2, UserType.hospital⟩) 7 db5).2 2 =
      some { demoDetails with oxygenCylinders := { total := 8 } } := by
  have h := accept_success_effects ⟨2, UserType.hospital⟩ 7 db5 reqOpen1
    demoDetails rfl rfl (by decide) rfl
  refine ⟨h.1, ?_⟩
  rw [h.2.2.1, h.2.2.2.2.1 2 rfl rfl]
  decide

/-- A kidney offer with blood group A+. -/
def offerK1 : OrganOffer :=
  { organName := OrganName.Kidney, bloodGroup := BloodGroup.APos,
    age := 30, notes := none }

/-- A second, distinct kidney offer with the same blood group. -/
def offerK2 : OrganOffer :=
  { organName := OrganName.Kidney, bloodGroup := BloodGroup.APos,
    age := 45, notes := some "second donor" }

/-- Hospital 2's inventory: two offers both matching (Kidney, A+). -/
def organProvider : HospitalDetails :=
  { demoDetails with organAvailability := [offerK1, offerK2] }

/-- An open organ request by hospital 1 for a Kidney with blood group A+. -/
def reqOrgan1 : Request :=
  { requestingHospital := 1
    providingHospital := none
    requestType := RequestType.Organ
    status := Status.Open
    details := { bloodGroup := some BloodGroup.APos, quantity := none,
                 organName := some OrganName.Kidney }
    description := "kidney needed" }

/-- Hospital 2 holds two matching offers; hospital 3 holds none. -/
def dbOrgan : DB :=
  { hospitals := [(1, demoDetails), (2, organProvider), (3, demoDetails)]
    requests := [(7, reqOrgan1)] }

/-- Counterexample to C2 as stated: hospital 2 holds **two** offers matching
(Kidney, A+); accepting the organ request removes both of them (the `$pull`
matches every element), so the offer list goes from length 2 to length 0,
not to length 1 as "removes exactly one matching offer" requires. -/
theorem accept_organ_pull_removes_all_cx :
    (acceptRequest (some ⟨2, UserType.hospital⟩) 7 dbOrgan).1 =
      Except.ok () ∧
    (findHosp dbOrgan 2).map (fun d => d.organAvailability.length) =
      some 2 ∧
    (findHosp (acceptRequest (some ⟨2, UserType.hospital⟩) 7 dbOrgan).2
      2).map (fun d => d.organAvailability.length) = some 0 ∧
    ¬ (findHosp (acceptRequest (some ⟨2, UserType.hospital⟩) 7 dbOrgan).2
      2).map (fun d => d.organAvailability.length) = some 1 := by
  refine ⟨rfl, rfl, rfl, by decide⟩

/-! ### C10 -/

/-- C10: accepting an open organ request the acting hospital does not own
succeeds even when that hospital holds no offer matching the request's
`(organName, bloodGroup)`: the `$pull` matches nothing, the inventory is
returned unchanged, and the request still becomes `Accepted` with the
acting hospital recorded as provider — no error reports the absence. -/
theorem accept_organ_no_match_succeeds (s : Session) (rid : Nat) (db : DB)
    (req : Request) (h : HospitalDetails)
    (hreq : findReq db rid = some req)
    (hopen : req.status = Status.Open)
    (hself : req.requestingHospital ≠ s.userId)
    (htype : req.requestType = RequestType.Organ)
    (hhos : findHosp db s.userId = some h)
    (hnone : ∀ off ∈ h.organAvailability,
      pullMatches off req.details.organName req.details.bloodGroup =
        false) :
    (acceptRequest (some s) rid db).1 = Except.ok () ∧
    findHosp (acceptRequest (some s) rid db).2 s.userId = some h ∧
    findReq (acceptRequest (some s) rid db).2 rid =
      some { req with status := Status.Accepted,
                      providingHospital := some s.userId } := by
  have hred : acceptRequest (some s) rid db =
      (Except.ok (), acceptCommit s.userId rid (computeUpdate req) db) := by
    simp [acceptRequest, acceptRead, hreq, hopen, hself]
  have hfilt : h.organAvailability.filter
      (fun off => ! pullMatches off req.details.organName
        req.details.bloodGroup) = h.organAvailability := by
    apply List.filter_eq_self.mpr
    intro a ha
    simp [hnone a ha]
  have happ : applyUpdate h (computeUpdate req) = h := by
    simp [computeUpdate, applyUpdate, htype, hfilt]
  refine ⟨by rw [hred], ?_, ?_⟩
  · rw [hred]
    simp [acceptCommit, findHosp_updateHosp_self, hhos, happ]
  · rw [hred]
    simp [acceptCommit, findReq_updateReq_self, hreq]

/-- Witness for C10: hospital 3 holds no organ offer at all, yet its accept
of the (Kidney, A+) request succeeds with its inventory unchanged. -/
theorem accept_organ_no_match_succeeds_witness :
    (acceptRequest (some ⟨3, UserType.hospital⟩) 7 dbOrgan).1 =
      Except.ok () ∧
    findHosp (acceptRequest (some ⟨3, UserType.hospital⟩) 7 dbOrgan).2 3 =
      some demoDetails := by
  have h := accept_organ_no_match_succeeds ⟨3, UserType.hospital⟩ 7 dbOrgan
    reqOrgan1 demoDetails rfl rfl (by decide) rfl rfl (by decide)
  exact ⟨h.1, h.2.1⟩

/-! ### C4 (amended) -/

/-- C4 (amended): `POST /api/requests` forces `requestingHospital` to the
session's user id whatever the draft carries, but it does **not** force
`status` or `providingHospital`: those are taken from the draft when
supplied, `status` falling back to the schema default `Open` and
`providingHospital` to null only when the draft omits them. -/
theorem create_forces_requester_only (s : Session) (newId : Nat)
    (draft : RequestDraft) (db : DB) (hfresh : findReq db newId = none) :
    ∃ req, (createRequest (some s) newId draft db).1 = Except.ok req ∧
      findReq (createRequest (some s) newId draft db).2 newId = some req ∧
      req.requestingHospital = s.userId ∧
      req.status = draft.status.getD Status.Open ∧
      req.providingHospital = draft.providingHospital := by
  refine ⟨_, rfl, ?_, rfl, rfl, rfl⟩
  exact lookupA_append_fresh db.requests newId _ hfresh

/-- A draft that tries to smuggle in a requester, a provider and a
non-`Open` status. -/
def draftForged : RequestDraft :=
  { requestingHospital := some 9
    providingHospital := some 4
    status := some Status.Closed
    requestType := RequestType.Oxygen
    details := { bloodGroup := none, quantity := some 2, organName := none }
    description := "forged" }

/-- Witness for C4 (amended) at the forged draft: the stored request is
owned by the caller yet keeps the draft's status and provider. -/
theorem create_forces_requester_only_witness :
    ∃ req, (createRequest (some ⟨1, UserType.hospital⟩) 10 draftForged
        db5).1 = Except.ok req ∧
      findReq (createRequest (some ⟨1, UserType.hospital⟩) 10 draftForged
        db5).2 10 = some req ∧
      req.requestingHospital = 1 ∧
      req.status = draftForged.status.getD Status.Open ∧
      req.providingHospital = draftForged.providingHospital :=
  create_forces_requester_only ⟨1, UserType.hospital⟩ 10 draftForged db5 rfl

/-- Counterexample to C4 as stated: the handler spreads `req.body` before
overriding only `requestingHospital`, so a caller-supplied
`status: Closed` and `providingHospital: 4` are persisted — the created
request is not `Open` and its provider is not null. -/
theorem create_honors_caller_status_cx :
    ((createRequest (some ⟨1, UserType.hospital⟩) 10 draftForged
      db5).1.map Request.status) = Except.ok Status.Closed ∧
    ((createRequest (some ⟨1, UserType.hospital⟩) 10 draftForged
      db5).1.map Request.providingHospital) = Except.ok (some 4) ∧
    Status.Closed ≠ Status.Open :=
  ⟨rfl, rfl, by decide⟩

/-! ### C8 (corrected) -/

/-- Counterexample to C8 as stated: an admin-typed session (user id 50,
matching no hospital document) accepts — and in the unmodified state would
equally reject — hospital 1's open request 7.  The routes check only that
a session exists, never its `userType`, so both provider actions succeed
for an admin instead of failing. -/
theorem admin_accept_succeeds_cx :
    (acceptRequest (some ⟨50, UserType.admin⟩) 7 db5).1 = Except.ok () ∧
    (rejectRequest (some ⟨50, UserType.admin⟩) 7 db5).1 = Except.ok () ∧
    findReq (acceptRequest (some ⟨50, UserType.admin⟩) 7 db5).2 7 =
      some { reqOpen1 with status := Status.Accepted,
                           providingHospital := some 50 } :=
  ⟨rfl, rfl, rfl⟩

/-- C8 (amended): accept and reject never consult the session's
`userType`; any authenticated principal — admin included — that is not the
requester succeeds on an open request.  When the acting id matches no
hospital document (the admin case) the inventory `findByIdAndUpdate`
matches nothing, so every hospital inventory is left unchanged while the
request still becomes `Accepted` with the admin id recorded as provider. -/
theorem accept_ignores_principal_role (t : UserType) (uid rid : Nat)
    (db : DB) (req : Request)
    (hreq : findReq db rid = some req)
    (hopen : req.status = Status.Open)
    (hself : req.requestingHospital ≠ uid)
    (hnohosp : findHosp db uid = none) :
    (acceptRequest (some ⟨uid, t⟩) rid db).1 = Except.ok () ∧
    (acceptRequest (some ⟨uid, t⟩) rid db).2.hospitals = db.hospitals ∧
    findReq (acceptRequest (some ⟨uid, t⟩) rid db).2 rid =
      some { req with status := Status.Accepted,
                      providingHospital := some uid } ∧
    (rejectRequest (some ⟨uid, t⟩) rid db).1 = Except.ok () := by
  have hred : acceptRequest (some ⟨uid, t⟩) rid db =
      (Except.ok (), acceptCommit uid rid (computeUpdate req) db) := by
    simp [acceptRequest, acceptRead, hreq, hopen, hself]
  have hcomm :
      updateHosp db uid (fun h => applyUpdate h (computeUpdate req)) = db :=
    updateHosp_not_found db uid _ hnohosp
  refine ⟨by rw [hred], ?_, ?_, ?_⟩
  · rw [hred]
    simp [acceptCommit, hcomm]
  · rw [hred]
    simp [acceptCommit, hcomm, findReq_updateReq_self, hreq]
  · simp [rejectRequest, hreq, hopen, hself]

/-- Witness for C8 (amended): the admin session 50 on `db5`. -/
theorem accept_ignores_principal_role_witness :
    (acceptRequest (some ⟨50, UserType.admin⟩) 7 db5).2.hospitals =
      db5.hospitals ∧
    (rejectRequest (some ⟨50, UserType.admin⟩) 7 db5).1 = Except.ok () := by
  have h := accept_ignores_principal_role UserType.admin 50 7 db5 reqOpen1
    rfl rfl (by decide) rfl
  exact ⟨h.2.1, h.2.2.2⟩

/-! ### C9 (corrected) -/

/-- An open request by hospital 3 for 3 units of O+ blood. -/
def reqBlood3 : Request :=
  { requestingHospital := 3
    providingHospital := none
    requestType := RequestType.Blood
    status := Status.Open
    details := { bloodGroup := some BloodGroup.OPos, quantity := some 3,
                 organName := none }
    description := "blood O plus" }

/-- Hospitals 1 and 2 each hold five O+ units; hospital 3 is requesting. -/
def raceDb : DB :=
  { hospitals := [(1, demoDetails), (2, demoDetails), (3, demoDetails)]
    requests := [(9, reqBlood3)] }

/-- Counterexample to C9 as stated: in the interleaving where both accept
handlers complete their `findById` read before either performs its writes
(each `await` is a yield point), **both** attempts succeed — neither fails
`invalidState` — and both hospitals' O+ counts are debited (5 to 2 each),
because the status transition is an unconditional read-then-write, not a
compare-and-swap. -/
theorem concurrent_accept_double_success_cx :
    (acceptConcurrentReadsFirst ⟨1, UserType.hospital⟩
      ⟨2, UserType.hospital⟩ 9 raceDb).1 = Except.ok () ∧
    (acceptConcurrentReadsFirst ⟨1, UserType.hospital⟩
      ⟨2, UserType.hospital⟩ 9 raceDb).2.1 = Except.ok () ∧
    (findHosp (acceptConcurrentReadsFirst ⟨1, UserType.hospital⟩
      ⟨2, UserType.hospital⟩ 9 raceDb).2.2 1).map
        (fun d => d.bloodAvailability.oPos) = some 2 ∧
    (findHosp (acceptConcurrentReadsFirst ⟨1, UserType.hospital⟩
      ⟨2, UserType.hospital⟩ 9 raceDb).2.2 2).map
        (fun d => d.bloodAvailability.oPos) = some 2 :=
  ⟨rfl, rfl, rfl, rfl⟩

/-- C9 (amended): the accept handler's status transition is a
read-then-write race, not conditional on the current status.  When two
accepts of different non-owning hospitals serialize, the first succeeds and
the second fails `invalidState`; but in the admissible interleaving where
both reads precede both writes, both attempts succeed and the request ends
`Accepted` with the second writer recorded as provider. -/
theorem accept_read_write_race (s1 s2 : Session) (rid : Nat) (db : DB)
    (req : Request)
    (hreq : findReq db rid = some req)
    (hopen : req.status = Status.Open)
    (h1 : req.requestingHospital ≠ s1.userId)
    (h2 : req.requestingHospital ≠ s2.userId) :
    (acceptConcurrentReadsFirst s1 s2 rid db).1 = Except.ok () ∧
    (acceptConcurrentReadsFirst s1 s2 rid db).2.1 = Except.ok () ∧
    findReq (acceptConcurrentReadsFirst s1 s2 rid db).2.2 rid =
      some { req with status := Status.Accepted,
                      providingHospital := some s2.userId } ∧
    (acceptRequest (some s2) rid (acceptRequest (some s1) rid db).2).1 =
      Except.error ApiError.invalidState := by
  have hr1 : acceptRead s1 rid db = Except.ok (computeUpdate req) := by
    simp [acceptRead, hreq, hopen, h1]
  have hr2 : acceptRead s2 rid db = Except.ok (computeUpdate req) := by
    simp [acceptRead, hreq, hopen, h2]
  have hstep1 : acceptRequest (some s1) rid db =
      (Except.ok (), acceptCommit s1.userId rid (computeUpdate req) db) := by
    simp [acceptRequest, hr1]
  have hfind1 : findReq (acceptCommit s1.userId rid (computeUpdate req) db)
      rid = some { req with status := Status.Accepted,
                            providingHospital := some s1.userId } := by
    simp [acceptCommit, findReq_updateReq_self, hreq]
  refine ⟨?_, ?_, ?_, ?_⟩
  · simp [acceptConcurrentReadsFirst, hr1]
  · simp [acceptConcurrentReadsFirst, hr2]
  · simp [acceptConcurrentReadsFirst, hr1, hr2, acceptCommit,
      findReq_updateReq_self, hreq]
  · rw [hstep1]
    simp [acceptRequest, acceptRead, hfind1]

/-- Witness for C9 (amended): the race over `raceDb`, plus the serialized
run where the loser observes `invalidState`. -/
theorem accept_read_write_race_witness :
    (acceptConcurrentReadsFirst ⟨1, UserType.hospital⟩
      ⟨2, UserType.hospital⟩ 9 raceDb).1 = Except.ok () ∧
    (acceptRequest (some ⟨2, UserType.hospital⟩) 9
      (acceptRequest (some ⟨1, UserType.hospital⟩) 9 raceDb).2).1 =
      Except.error ApiError.invalidState := by
  have h := accept_read_write_race ⟨1, UserType.hospital⟩
    ⟨2, UserType.hospital⟩ 9 raceDb reqBlood3 rfl rfl (by decide)
    (by decide)
  exact ⟨h.1, h.2.2.2⟩

/-! ### C1 (code bug) -/

/-- Hospital 1's oxygen request after hospital 2 rejected it. -/
def reqRejected1 : Request :=
  { requestingHospital := 1
    providingHospital := some 2
    requestType := RequestType.Oxygen
    status := Status.Rejected
    details := { bloodGroup := none, quantity := some 2, organName := none }
    description := "need oxygen" }

/-- A database whose only request is already in the terminal `Rejected`
state. -/
def dbRejected : DB :=
  { hospitals := [(1, demoDetails), (2, demoDetails)]
    requests := [(7, reqRejected1)] }

/-- C1 fails on the code: the finalize handler checks ownership and the
target string but never the current status, so the requester can finalize
an already-`Rejected` request.  Evaluated at the failing input: request 7
is `Rejected`, hospital 1 finalizes with "Closed", the call succeeds and
the status leaves the terminal state for `Closed` — contradicting both the
spec's state machine and the handler's own comment that `Closed` records a
successful fulfillment. -/
theorem finalize_moves_rejected_to_closed :
    (findReq dbRejected 7).map Request.status = some Status.Rejected ∧
    (finalizeRequest (some ⟨1, UserType.hospital⟩) 7 "Closed"
      dbRejected).1 = Except.ok () ∧
    (findReq (finalizeRequest (some ⟨1, UserType.hospital⟩) 7 "Closed"
      dbRejected).2 7).map Request.status = some Status.Closed :=
  ⟨rfl, rfl, rfl⟩

/-! ### C3 (code bug) -/

/-- Hospital 2's inventory with a single O+ unit. -/
def lowBlood : HospitalDetails :=
  { demoDetails with bloodAvailability :=
      { demoDetails.bloodAvailability with oPos := 1 } }

/-- An open request by hospital 1 for three O+ units. -/
def reqBloodBig : Request :=
  { requestingHospital := 1
    providingHospital := none
    requestType := RequestType.Blood
    status := Status.Open
    details := { bloodGroup := some BloodGroup.OPos, quantity := some 3,
                 organName := none }
    description := "blood O plus urgently" }

/-- Hospital 2 holds one O+ unit; request 7 asks for three. -/
def dbLow : DB :=
  { hospitals := [(1, demoDetails), (2, lowBlood)]
    requests := [(7, reqBloodBig)] }

/-- C3 fails on the code: no sufficiency check precedes the `$inc` debit.
Hospital 2 holds one O+ unit; accepting the 3-unit O+ request succeeds
anyway and drives the count to -2, instead of failing with an
insufficient-inventory error and leaving the inventory unchanged. -/
theorem accept_blood_negative_inventory :
    (acceptRequest (some ⟨2, UserType.hospital⟩) 7 dbLow).1 =
      Except.ok () ∧
    (findHosp dbLow 2).map (fun d => d.bloodAvailability.oPos) = some 1 ∧
    (findHosp (acceptRequest (some ⟨2, UserType.hospital⟩) 7 dbLow).2
      2).map (fun d => d.bloodAvailability.oPos) = some (-2) :=
  ⟨rfl, rfl, by decide⟩
